import Mathlib

/-!
Verification of the Meta-Layer Gateway (`src/main.py`).

The gateway is a stateless HTTP proxy: each handler issues at most one
outbound HTTP call to the Tool Warehouse and maps the upstream outcome to
a response.  We embed each handler as a pure Lean function over an
abstract upstream behaviour `Upstream : OutboundCall → CallOutcome`, and
have every handler also return the list of outbound calls it issued, so
that call-count and timeout claims are statable.

Python's `try`/`except` control flow is embedded with an explicit
`Except PyExc` layer: the body of a `try` block returns `Except PyExc α`
(an exception raised inside the block becomes `.error e`), and the
`except` clauses are a match on that value, in the source's clause order.
A crucial consequence kept faithful here: `fastapi.HTTPException`
subclasses `Exception`, so an `HTTPException` raised *inside* a `try`
block is caught by a trailing `except Exception` clause of that block.
-/

namespace MetaLayer

/-- JSON values, the result of `response.json()` and the payload shapes the
gateway moves around. Numbers are modelled as integers. -/
inductive Json where
  | null
  | bool (b : Bool)
  | num (n : Int)
  | str (s : String)
  | arr (elems : List Json)
  | obj (fields : List (String × Json))

/-- Python `repr` of a parsed-JSON value (`None`, `True`, quoted strings,
`[..]` lists, `{'k': v}` dicts), as used inside f-string rendering of
containers. -/
def pyRepr : Json → String
  | .null => "None"
  | .bool true => "True"
  | .bool false => "False"
  | .num n => toString n
  | .str s => "'" ++ s ++ "'"
  | .arr elems => "[" ++ String.intercalate ", " (elems.attach.map (fun e => pyRepr e.1)) ++ "]"
  | .obj fields =>
      "\x7b" ++ String.intercalate ", "
        (fields.attach.map (fun f => "'" ++ f.1.1 ++ "': " ++ pyRepr f.1.2)) ++ "\x7d"
decreasing_by
  · have := List.sizeOf_lt_of_mem e.2
    simp only [Json.arr.sizeOf_spec]
    omega
  · obtain ⟨⟨k, v⟩, hm⟩ := f
    have := List.sizeOf_lt_of_mem hm
    simp only [Prod.mk.sizeOf_spec] at this
    simp only [Json.obj.sizeOf_spec]
    omega

/-- Python `str` of a parsed-JSON value, as produced by an f-string:
identical to `repr` except that strings render unquoted. -/
def pyStr : Json → String
  | .str s => s
  | j => pyRepr j

/-- Python type name of a parsed-JSON value, as it appears in `TypeError`
and `AttributeError` messages. -/
def pyTypeName : Json → String
  | .null => "NoneType"
  | .bool _ => "bool"
  | .num _ => "int"
  | .str _ => "str"
  | .arr _ => "list"
  | .obj _ => "dict"

/-- Lookup of a key in a parsed JSON object, Python's `dict.get(k)` (maps
built from JSON have each key at most once; we take the first binding). -/
def lookupField (fields : List (String × Json)) (k : String) : Option Json :=
  (fields.find? (fun p => p.1 == k)).map (fun p => p.2)

/-- Body of an upstream HTTP response, as seen through `httpx.Response`:
`text` is `response.text` (the raw body decoded as text) and `json` is the
outcome of `response.json()` — either the parsed value or the message of
the exception the parse raises (for non-JSON bodies). -/
structure UpstreamBody where
  text : String
  json : Except String Json

/-- Outcome of one outbound `httpx` call, classified exactly as the
handlers' `except` clauses classify it: an HTTP response arrived, or
`httpx.TimeoutException` was raised, or some other `httpx.RequestError`
was raised (connection-level failure), or some other exception was raised. -/
inductive CallOutcome where
  | response (status : Nat) (body : UpstreamBody)
  | timeout (msg : String)
  | connectError (msg : String)
  | failure (msg : String)

/-- One outbound HTTP call: method, full URL, the `timeout=` argument in
seconds, and the JSON request body if any. -/
structure OutboundCall where
  method : String
  url : String
  timeoutSecs : Nat
  body : Option Json := none

/-- Behaviour of the upstream Tool Warehouse during one inbound request:
what each outbound call would come back with. -/
abbrev Upstream := OutboundCall → CallOutcome

/-- Python exceptions the handlers distinguish. `httpException` is
`fastapi.HTTPException` — note it subclasses `Exception`, so a blanket
`except Exception` catches it. The other constructors carry `str(e)`. -/
inductive PyExc where
  | httpException (status_code : Nat) (detail : String)
  | timeoutException (msg : String)
  | requestError (msg : String)
  | otherException (msg : String)

/-- Python `str(e)` for each modelled exception. For
`starlette.exceptions.HTTPException` this is `f"{self.status_code}: {self.detail}"`. -/
def strPyExc : PyExc → String
  | .httpException st d => toString st ++ ": " ++ d
  | .timeoutException m => m
  | .requestError m => m
  | .otherException m => m

/-- An uncaught `fastapi.HTTPException` as it leaves a handler: FastAPI
turns it into a response with this status code and `{"detail": detail}`. -/
structure HTTPException where
  status_code : Nat
  detail : String

/-- Perform one outbound call inside a `try` block: a response is a normal
value, and the three failure classes are raised as exceptions. -/
def doCall (up : Upstream) (c : OutboundCall) : Except PyExc (Nat × UpstreamBody) :=
  match up c with
  | .response st body => .ok (st, body)
  | .timeout m => .error (.timeoutException m)
  | .connectError m => .error (.requestError m)
  | .failure m => .error (.otherException m)

/-- Outward HTTP view of a handler that either returns a JSON value
(FastAPI replies 200 with it) or lets an `HTTPException` escape (FastAPI
replies with its status and `{"detail": ...}`). -/
def httpOf : Except HTTPException Json → Nat × Json
  | .ok v => (200, v)
  | .error e => (e.status_code, .obj [("detail", .str e.detail)])

/-- Pydantic model of the inbound execution payload (`main.py` line 25):
`parameters: Dict[str, Any] = {}`. -/
structure ToolExecutionRequest where
  parameters : List (String × Json) := []

/-- Pydantic model of the execution response (`main.py` line 28):
`success: bool`, `tool_name: str`, `result: Any = None`,
`error: Optional[str] = None`. -/
structure ToolExecutionResponse where
  success : Bool
  tool_name : String
  result : Json := .null
  error : Option String := none

/-- Pydantic validation performed by `ToolExecutionResponse(**result)`
(`main.py` line 149): `result` must be a mapping (else `TypeError`),
`success` and `tool_name` are required and typed, `result` is any value
defaulting to null, `error` is an optional string; extra keys are ignored.
On failure the returned message models `str` of the raised exception. -/
def validateToolExecutionResponse (j : Json) : Except String ToolExecutionResponse :=
  match j with
  | .obj fields =>
    (match lookupField fields "success" with
     | none => .error "1 validation error for ToolExecutionResponse: success field required"
     | some (.bool b) =>
       (match lookupField fields "tool_name" with
        | none => .error "1 validation error for ToolExecutionResponse: tool_name field required"
        | some (.str tn) =>
          (match lookupField fields "error" with
           | none =>
               .ok { success := b, tool_name := tn,
                     result := (lookupField fields "result").getD .null, error := none }
           | some .null =>
               .ok { success := b, tool_name := tn,
                     result := (lookupField fields "result").getD .null, error := none }
           | some (.str e) =>
               .ok { success := b, tool_name := tn,
                     result := (lookupField fields "result").getD .null, error := some e }
           | some _ =>
               .error "1 validation error for ToolExecutionResponse: error str type expected")
        | some _ => .error "1 validation error for ToolExecutionResponse: tool_name str type expected")
     | some _ => .error "1 validation error for ToolExecutionResponse: success bool type expected")
  | _ => .error ("argument of type '" ++ pyTypeName j ++ "' is not a mapping")

/-- The two steps of the 200-branch of `execute_tool` (`main.py` lines
147-149): `result = response.json()` then `ToolExecutionResponse(**result)`;
either step may raise, and the message is what the catch-all sees. -/
def parseExecutionResult (body : UpstreamBody) : Except String ToolExecutionResponse :=
  match body.json with
  | .error m => .error m
  | .ok j => validateToolExecutionResponse j

/-- Evaluation of `response.json().get("detail", response.text)` followed
by the f-string rendering of the chosen value (`main.py` line 151).
Raises (as `.error`) when the body is not JSON (the `json()` call raises)
or parses to a non-dict (`.get` raises `AttributeError`). -/
def jsonGetDetail (body : UpstreamBody) : Except String String :=
  match body.json with
  | .error m => .error m
  | .ok (.obj fields) =>
      .ok (match lookupField fields "detail" with
           | some d => pyStr d
           | none => body.text)
  | .ok j => .error ("'" ++ pyTypeName j ++ "' object has no attribute 'get'")

/-- Serialization of a `ToolExecutionResponse` by FastAPI's
`response_model` machinery into the JSON reply body. -/
def serializeResponse (r : ToolExecutionResponse) : Json :=
  .obj [("success", .bool r.success), ("tool_name", .str r.tool_name),
        ("result", r.result),
        ("error", match r.error with | some s => .str s | none => .null)]

/-- Configuration (`main.py` line 22): the upstream base URL, read once
from the environment with this default. Handlers take the URL as an
explicit parameter; this constant is the default value. -/
def TOOL_WAREHOUSE_URL : String := "http://localhost:8001"

/-- The outbound call of `health_check` (`main.py` line 61):
`GET {TOOL_WAREHOUSE_URL}/health` with `timeout=5.0`. -/
def healthCall (url : String) : OutboundCall :=
  { method := "GET", url := url ++ "/health", timeoutSecs := 5 }

/-- The outbound call of `discover_tools` (`main.py` line 91):
`GET {TOOL_WAREHOUSE_URL}/tools` with `timeout=10.0`. -/
def toolsCall (url : String) : OutboundCall :=
  { method := "GET", url := url ++ "/tools", timeoutSecs := 10 }

/-- The outbound call of `execute_tool` (`main.py` lines 141-145):
`POST {TOOL_WAREHOUSE_URL}/execute/{tool_name}` with body
`{"parameters": request.parameters}` and `timeout=30.0`. -/
def executeCall (url tool_name : String) (request : ToolExecutionRequest) : OutboundCall :=
  { method := "POST", url := url ++ "/execute/" ++ tool_name, timeoutSecs := 30,
    body := some (.obj [("parameters", .obj request.parameters)]) }

/-- The outbound call of `get_tool_code` (`main.py` lines 189-192):
`GET {TOOL_WAREHOUSE_URL}/tools/{tool_name}/code` with `timeout=10.0`. -/
def codeCall (url tool_name : String) : OutboundCall :=
  { method := "GET", url := url ++ "/tools/" ++ tool_name ++ "/code", timeoutSecs := 10 }

/-- `GET /` handler (`main.py` lines 38-51): static service metadata, no
outbound call. -/
def root (url : String) : Json × List OutboundCall :=
  (.obj [("service", .str "meta-layer-gateway"),
         ("version", .str "1.0.0"),
         ("status", .str "active"),
         ("endpoints", .obj [("health", .str "/health"),
                             ("discover_tools", .str "/tools"),
                             ("execute_tool", .str "/execute/{tool_name}")]),
         ("connected_to", .str url)],
   [])

/-- `GET /health` handler (`main.py` lines 53-74): one upstream call; the
bare `except:` absorbs every raised exception into `warehouse_healthy =
False`; the handler then always returns this JSON value (HTTP 200). -/
def health_check (url : String) (up : Upstream) : Json × List OutboundCall :=
  (let warehouse_healthy : Bool :=
     match doCall up (healthCall url) with
     | .ok (st, _) => st == 200
     | .error _ => false
   .obj [("status", .str (if warehouse_healthy then "healthy" else "degraded")),
         ("service", .str "meta-layer-gateway"),
         ("version", .str "1.0.0"),
         ("tool_warehouse",
            .obj [("url", .str url),
                  ("status", .str (if warehouse_healthy then "connected" else "unreachable"))])],
   [healthCall url])

/-- Body of the `try` block of `discover_tools` (`main.py` lines 89-99):
perform the call; on 200 return `response.json()` (whose parse failure
raises); otherwise raise `HTTPException(response.status_code,
f"Tool Warehouse returned error: {response.text}")`. -/
def discover_tools_try (url : String) (up : Upstream) : Except PyExc Json :=
  match doCall up (toolsCall url) with
  | .error e => .error e
  | .ok (st, body) =>
    if st = 200 then
      match body.json with
      | .ok j => .ok j
      | .error m => .error (.otherException m)
    else
      .error (.httpException st ("Tool Warehouse returned error: " ++ body.text))

/-- `GET /tools` handler (`main.py` lines 80-115): the `except` clauses in
source order. The trailing `except Exception` also catches the
`HTTPException` raised by the non-200 branch inside the `try` block
(`fastapi.HTTPException` subclasses `Exception`), re-raising it as a 500
whose detail is `f"Meta-Layer error: {str(e)}"`. -/
def discover_tools (url : String) (up : Upstream) :
    Except HTTPException Json × List OutboundCall :=
  (match discover_tools_try url up with
   | .ok v => .ok v
   | .error (.timeoutException _) =>
       .error ⟨504, "Tool Warehouse timeout - service may be unavailable"⟩
   | .error (.requestError m) =>
       .error ⟨503, "Cannot reach Tool Warehouse at " ++ url ++ ": " ++ m⟩
   | .error e =>
       .error ⟨500, "Meta-Layer error: " ++ strPyExc e⟩,
   [toolsCall url])

/-- `GET /registry` handler (`main.py` lines 117-120): returns
`await discover_tools()`. -/
def get_registry (url : String) (up : Upstream) :
    Except HTTPException Json × List OutboundCall :=
  discover_tools url up

/-- Body of the `try` block of `execute_tool` (`main.py` lines 139-156):
perform the call; on 200 parse and validate the execution result (either
step may raise); otherwise compute
`response.json().get("detail", response.text)` (which may raise) and
return a failure `ToolExecutionResponse`. -/
def execute_tool_try (url tool_name : String) (request : ToolExecutionRequest)
    (up : Upstream) : Except PyExc ToolExecutionResponse :=
  match doCall up (executeCall url tool_name request) with
  | .error e => .error e
  | .ok (st, body) =>
    if st = 200 then
      match parseExecutionResult body with
      | .ok r => .ok r
      | .error m => .error (.otherException m)
    else
      match jsonGetDetail body with
      | .ok error_detail =>
          .ok { success := false, tool_name := tool_name,
                error := some ("Tool Warehouse error: " ++ error_detail) }
      | .error m => .error (.otherException m)

/-- `POST /execute/{tool_name}` handler (`main.py` lines 126-175): every
`except` clause returns (never raises), so the handler always produces a
`ToolExecutionResponse`, which FastAPI serializes with HTTP 200. -/
def execute_tool (url tool_name : String) (request : ToolExecutionRequest)
    (up : Upstream) : ToolExecutionResponse × List OutboundCall :=
  (match execute_tool_try url tool_name request up with
   | .ok r => r
   | .error (.timeoutException _) =>
       { success := false, tool_name := tool_name,
         error := some "Tool execution timeout - tool may be taking too long" }
   | .error (.requestError m) =>
       { success := false, tool_name := tool_name,
         error := some ("Cannot reach Tool Warehouse: " ++ m) }
   | .error e =>
       { success := false, tool_name := tool_name,
         error := some ("Meta-Layer error: " ++ strPyExc e) },
   [executeCall url tool_name request])

/-- Outward HTTP view of `execute_tool`: the handler returns a model value
in every branch and `response_model=ToolExecutionResponse` serializes it
with status 200. -/
def executeHTTP (url tool_name : String) (request : ToolExecutionRequest)
    (up : Upstream) : Nat × Json :=
  (200, serializeResponse (execute_tool url tool_name request up).1)

/-- Body of the `try` block of `get_tool_code` (`main.py` lines 187-200):
perform the call; on 200 return `{"tool_name": ..., "code": response.text}`;
otherwise raise `HTTPException(response.status_code, response.text)`. -/
def get_tool_code_try (url tool_name : String) (up : Upstream) : Except PyExc Json :=
  match doCall up (codeCall url tool_name) with
  | .error e => .error e
  | .ok (st, body) =>
    if st = 200 then
      .ok (.obj [("tool_name", .str tool_name), ("code", .str body.text)])
    else
      .error (.httpException st body.text)

/-- `GET /tools/{tool_name}/code` handler (`main.py` lines 181-206): a
single `except Exception` clause catches every raised exception —
including the `HTTPException` of the non-200 branch — and re-raises
`HTTPException(500, f"Error retrieving tool code: {str(e)}")`. -/
def get_tool_code (url tool_name : String) (up : Upstream) :
    Except HTTPException Json × List OutboundCall :=
  (match get_tool_code_try url tool_name up with
   | .ok v => .ok v
   | .error e => .error ⟨500, "Error retrieving tool code: " ++ strPyExc e⟩,
   [codeCall url tool_name])

/-- Check whether `pat` occurs as a contiguous run at the head of `s`. -/
def listHasPrefix : List Char → List Char → Bool
  | [], _ => true
  | _ :: _, [] => false
  | p :: ps, c :: cs => p == c && listHasPrefix ps cs

/-- Check whether `pat` occurs as a contiguous run anywhere in `s`. -/
def listContainsSub (pat : List Char) : List Char → Bool
  | [] => listHasPrefix pat []
  | c :: rest => listHasPrefix pat (c :: rest) || listContainsSub pat rest

/-- Substring test: does `s` contain `pat`?  Used to state the spec's
"message embeds / contains X" clauses. -/
def containsStr (s pat : String) : Bool :=
  listContainsSub pat.data s.data

/-- Helper: an upstream response is seen inside the `try` block as a
normal `(status, body)` value. -/
theorem doCall_eq_response {up : Upstream} {c : OutboundCall} {st : Nat} {b : UpstreamBody}
    (h : up c = .response st b) : doCall up c = .ok (st, b) := by
  simp [doCall, h]

/-- Helper: an upstream timeout is seen inside the `try` block as a raised
`httpx.TimeoutException`. -/
theorem doCall_eq_timeout {up : Upstream} {c : OutboundCall} {m : String}
    (h : up c = .timeout m) : doCall up c = .error (.timeoutException m) := by
  simp [doCall, h]

/-- Helper: a connection-level failure is seen inside the `try` block as a
raised `httpx.RequestError`. -/
theorem doCall_eq_connectError {up : Upstream} {c : OutboundCall} {m : String}
    (h : up c = .connectError m) : doCall up c = .error (.requestError m) := by
  simp [doCall, h]

/-- Helper: any other failure of the call is seen inside the `try` block
as a raised generic exception. -/
theorem doCall_eq_failure {up : Upstream} {c : OutboundCall} {m : String}
    (h : up c = .failure m) : doCall up c = .error (.otherException m) := by
  simp [doCall, h]

/-- C6: for every upstream 200 response to `GET /tools` (whose body parses
as JSON value `j`), the gateway responds with HTTP 200 and exactly that
JSON body, unchanged. -/
theorem C6_tools_200_relays_body (url : String) (up : Upstream) (b : UpstreamBody) (j : Json)
    (h : up (toolsCall url) = .response 200 b) (hj : b.json = .ok j) :
    httpOf (discover_tools url up).1 = (200, j) := by
  simp [discover_tools, discover_tools_try, doCall_eq_response h, hj, httpOf]

/-- Witness for C6: the spec's scenario — upstream `/tools` returns
`{"tools": ["a", "b"]}` with 200, and the gateway relays it with 200. -/
theorem C6_tools_200_relays_body_witness :
    httpOf (discover_tools TOOL_WAREHOUSE_URL
        (fun _ => .response 200
          ⟨"registry body text", .ok (.obj [("tools", .arr [.str "a", .str "b"])])⟩)).1
      = (200, .obj [("tools", .arr [.str "a", .str "b"])]) :=
  C6_tools_200_relays_body TOOL_WAREHOUSE_URL _ _ _ rfl rfl

/-- C7: when the outbound `GET /tools` call fails with no upstream HTTP
response, the gateway fails with 504 on timeout (message saying the
service may be unavailable), 503 on connection-level failure (message
naming the configured upstream URL), and 500 with the failure's message
otherwise. -/
theorem C7_tools_failure_mapping (url : String) (up : Upstream) :
    (∀ m, up (toolsCall url) = .timeout m →
      (discover_tools url up).1 =
        .error ⟨504, "Tool Warehouse timeout - service may be unavailable"⟩) ∧
    (∀ m, up (toolsCall url) = .connectError m →
      (discover_tools url up).1 =
        .error ⟨503, "Cannot reach Tool Warehouse at " ++ url ++ ": " ++ m⟩) ∧
    (∀ m, up (toolsCall url) = .failure m →
      (discover_tools url up).1 =
        .error ⟨500, "Meta-Layer error: " ++ m⟩) := by
  refine ⟨?_, ?_, ?_⟩
  · intro m h
    simp [discover_tools, discover_tools_try, doCall_eq_timeout h]
  · intro m h
    simp [discover_tools, discover_tools_try, doCall_eq_connectError h]
  · intro m h
    simp [discover_tools, discover_tools_try, doCall_eq_failure h, strPyExc]

/-- Witness for C7: a concrete timed-out upstream yields the 504 error. -/
theorem C7_tools_failure_mapping_witness :
    (discover_tools TOOL_WAREHOUSE_URL (fun _ => .timeout "ReadTimeout")).1 =
      .error ⟨504, "Tool Warehouse timeout - service may be unavailable"⟩ :=
  (C7_tools_failure_mapping TOOL_WAREHOUSE_URL _).1 "ReadTimeout" rfl

/-- C8: `GET /registry` is `GET /tools`: for any upstream behaviour the
two handlers produce identical results (response and outbound calls). -/
theorem C8_registry_is_tools (url : String) (up : Upstream) :
    get_registry url up = discover_tools url up := rfl

/-- C9: each endpoint issues exactly one outbound call, with its
per-endpoint timeout (5s health, 10s tools/registry/code, 30s execute),
and `GET /` issues none. -/
theorem C9_one_call_per_request (url tool_name : String) (request : ToolExecutionRequest)
    (up : Upstream) :
    (root url).2 = [] ∧
    (health_check url up).2 = [healthCall url] ∧
    (discover_tools url up).2 = [toolsCall url] ∧
    (get_registry url up).2 = [toolsCall url] ∧
    (execute_tool url tool_name request up).2 = [executeCall url tool_name request] ∧
    (get_tool_code url tool_name up).2 = [codeCall url tool_name] ∧
    (healthCall url).timeoutSecs = 5 ∧
    (toolsCall url).timeoutSecs = 10 ∧
    (codeCall url tool_name).timeoutSecs = 10 ∧
    (executeCall url tool_name request).timeoutSecs = 30 :=
  ⟨rfl, rfl, rfl, rfl, rfl, rfl, rfl, rfl, rfl, rfl⟩

/-- C1: the claim fails on the code. For every upstream non-200 response
to `GET /tools`, the `HTTPException(response.status_code, ...)` raised by
the non-200 branch is caught by the same `try` block's trailing
`except Exception` clause (`fastapi.HTTPException` subclasses
`Exception`), so the gateway replies 500 — not the upstream's status —
with the caught exception stringified into a `"Meta-Layer error: ..."`
detail. -/
theorem C1_tools_non200_maps_to_500 (url : String) (up : Upstream) (st : Nat)
    (b : UpstreamBody) (h : up (toolsCall url) = .response st b) (hst : st ≠ 200) :
    (discover_tools url up).1 =
      .error ⟨500, "Meta-Layer error: " ++
        (toString st ++ ": " ++ ("Tool Warehouse returned error: " ++ b.text))⟩ := by
  simp [discover_tools, discover_tools_try, doCall_eq_response h, hst, strPyExc]

/-- Witness for C1: upstream replies 404 with body `missing`; the gateway
replies 500, not 404. -/
theorem C1_tools_non200_maps_to_500_witness :
    (discover_tools TOOL_WAREHOUSE_URL
        (fun _ => .response 404 ⟨"missing", .error "Expecting value: line 1 column 1 (char 0)"⟩)).1
      = .error ⟨500, "Meta-Layer error: 404: Tool Warehouse returned error: missing"⟩ :=
  (C1_tools_non200_maps_to_500 TOOL_WAREHOUSE_URL
    (fun _ => .response 404 ⟨"missing", .error "Expecting value: line 1 column 1 (char 0)"⟩)
    404 ⟨"missing", .error "Expecting value: line 1 column 1 (char 0)"⟩ rfl (by decide)).trans rfl

/-- C3: the non-200 clause of the claim fails on the code, by the same
slip as C1. For every upstream non-200 response to
`GET /tools/{tool_name}/code`, the raised
`HTTPException(response.status_code, response.text)` is caught by the
handler's own `except Exception` clause, so the gateway replies 500 with
`"Error retrieving tool code: "` followed by `str` of the caught
exception — not the upstream's status code with its body text as the
detail. -/
theorem C3_code_non200_maps_to_500 (url tool_name : String) (up : Upstream) (st : Nat)
    (b : UpstreamBody) (h : up (codeCall url tool_name) = .response st b) (hst : st ≠ 200) :
    (get_tool_code url tool_name up).1 =
      .error ⟨500, "Error retrieving tool code: " ++ (toString st ++ ": " ++ b.text)⟩ := by
  simp [get_tool_code, get_tool_code_try, doCall_eq_response h, hst, strPyExc]

/-- Witness for C3: upstream replies 404 with body `tool not found`; the
gateway replies 500, not 404. -/
theorem C3_code_non200_maps_to_500_witness :
    (get_tool_code TOOL_WAREHOUSE_URL "foo"
        (fun _ => .response 404 ⟨"tool not found", .error "Expecting value: line 1 column 1 (char 0)"⟩)).1
      = .error ⟨500, "Error retrieving tool code: 404: tool not found"⟩ :=
  (C3_code_non200_maps_to_500 TOOL_WAREHOUSE_URL "foo"
    (fun _ => .response 404 ⟨"tool not found", .error "Expecting value: line 1 column 1 (char 0)"⟩)
    404 ⟨"tool not found", .error "Expecting value: line 1 column 1 (char 0)"⟩ rfl (by decide)).trans rfl

/-- C4: `GET /health` always returns its JSON envelope (the handler's only
statement after the `try` is an unconditional `return`, so FastAPI replies
200): upstream 200 yields `"healthy"`/`"connected"`, and every other
upstream status or any raised exception yields `"degraded"`/`"unreachable"`;
either way the body names the configured upstream URL. -/
theorem C4_health_envelope (url : String) (up : Upstream) :
    ((∃ b, up (healthCall url) = .response 200 b) →
      (health_check url up).1 =
        .obj [("status", .str "healthy"),
              ("service", .str "meta-layer-gateway"),
              ("version", .str "1.0.0"),
              ("tool_warehouse", .obj [("url", .str url), ("status", .str "connected")])]) ∧
    ((∀ b, up (healthCall url) ≠ .response 200 b) →
      (health_check url up).1 =
        .obj [("status", .str "degraded"),
              ("service", .str "meta-layer-gateway"),
              ("version", .str "1.0.0"),
              ("tool_warehouse", .obj [("url", .str url), ("status", .str "unreachable")])]) := by
  constructor
  · rintro ⟨b, hb⟩
    simp [health_check, doCall_eq_response hb]
  · intro hne
    cases h : up (healthCall url) with
    | response st b =>
        have hst : st ≠ 200 := by
          intro he
          exact hne b (he ▸ h)
        simp [health_check, doCall_eq_response h, hst]
    | timeout m => simp [health_check, doCall_eq_timeout h]
    | connectError m => simp [health_check, doCall_eq_connectError h]
    | failure m => simp [health_check, doCall_eq_failure h]

/-- Witness for C4: a timed-out upstream health probe yields the degraded
envelope, still naming the upstream URL. -/
theorem C4_health_envelope_witness :
    (health_check TOOL_WAREHOUSE_URL (fun _ => .timeout "ConnectTimeout")).1 =
      .obj [("status", .str "degraded"),
            ("service", .str "meta-layer-gateway"),
            ("version", .str "1.0.0"),
            ("tool_warehouse",
               .obj [("url", .str TOOL_WAREHOUSE_URL), ("status", .str "unreachable")])] :=
  (C4_health_envelope TOOL_WAREHOUSE_URL _).2 (fun _ h => by simp at h)

/-- C2: `POST /execute/{tool_name}` always replies HTTP 200 with a
serialized `ToolExecutionResponse`; when the upstream returns 200 with a
body that parses and validates, that model is returned as-is (so `success`
is true only then, and only if the upstream's own `success` is true), and
in every failure class — non-200 status, 200 with an unparseable or
invalid body, timeout, connection failure, or any other failure —
`success` is false. -/
theorem C2_execute_always_200 (url tool_name : String) (request : ToolExecutionRequest)
    (up : Upstream) :
    (executeHTTP url tool_name request up).1 = 200 ∧
    (∀ b r, up (executeCall url tool_name request) = .response 200 b →
        parseExecutionResult b = .ok r →
        (execute_tool url tool_name request up).1 = r) ∧
    (∀ st b, up (executeCall url tool_name request) = .response st b → st ≠ 200 →
        (execute_tool url tool_name request up).1.success = false) ∧
    (∀ b m, up (executeCall url tool_name request) = .response 200 b →
        parseExecutionResult b = .error m →
        (execute_tool url tool_name request up).1.success = false) ∧
    (∀ m, up (executeCall url tool_name request) = .timeout m →
        (execute_tool url tool_name request up).1.success = false) ∧
    (∀ m, up (executeCall url tool_name request) = .connectError m →
        (execute_tool url tool_name request up).1.success = false) ∧
    (∀ m, up (executeCall url tool_name request) = .failure m →
        (execute_tool url tool_name request up).1.success = false) := by
  refine ⟨rfl, ?_, ?_, ?_, ?_, ?_, ?_⟩
  · intro b r h hp
    simp [execute_tool, execute_tool_try, doCall_eq_response h, hp]
  · intro st b h hst
    cases hd : jsonGetDetail b with
    | ok d => simp [execute_tool, execute_tool_try, doCall_eq_response h, hst, hd]
    | error m => simp [execute_tool, execute_tool_try, doCall_eq_response h, hst, hd]
  · intro b m h hp
    simp [execute_tool, execute_tool_try, doCall_eq_response h, hp]
  · intro m h
    simp [execute_tool, execute_tool_try, doCall_eq_timeout h]
  · intro m h
    simp [execute_tool, execute_tool_try, doCall_eq_connectError h]
  · intro m h
    simp [execute_tool, execute_tool_try, doCall_eq_failure h]

/-- Witness for C2: the spec's scenario — upstream `/execute/foo`
unreachable gives a failure payload with `success = false`. -/
theorem C2_execute_always_200_witness :
    (executeHTTP TOOL_WAREHOUSE_URL "foo" {} (fun _ => .connectError "All connection attempts failed")).1
        = 200 ∧
    (execute_tool TOOL_WAREHOUSE_URL "foo" {} (fun _ => .connectError "All connection attempts failed")).1.success
        = false :=
  ⟨(C2_execute_always_200 TOOL_WAREHOUSE_URL "foo" {} _).1,
   (C2_execute_always_200 TOOL_WAREHOUSE_URL "foo" {} _).2.2.2.2.2.1
     "All connection attempts failed" rfl⟩

/-- C10: when the upstream replies 200 to `POST /execute/{tool_name}` but
the body does not form a valid `ToolExecutionResponse` (the `json()` parse
or the model validation raises, with message `m`), the catch-all clause
still returns a response — `success = false`, the path's tool name, and an
error equal to `"Meta-Layer error: "` followed by the failure's message. -/
theorem C10_execute_200_invalid_body (url tool_name : String) (request : ToolExecutionRequest)
    (up : Upstream) (b : UpstreamBody) (m : String)
    (h : up (executeCall url tool_name request) = .response 200 b)
    (hm : parseExecutionResult b = .error m) :
    (execute_tool url tool_name request up).1 =
      { success := false, tool_name := tool_name,
        error := some ("Meta-Layer error: " ++ m) } := by
  simp [execute_tool, execute_tool_try, doCall_eq_response h, hm, strPyExc]

/-- Witness for C10: upstream replies 200 with a non-JSON body; the
handler returns a failure payload carrying the decode error's message. -/
theorem C10_execute_200_invalid_body_witness :
    (execute_tool TOOL_WAREHOUSE_URL "foo" {}
        (fun _ => .response 200 ⟨"oops", .error "Expecting value: line 1 column 1 (char 0)"⟩)).1
      = { success := false, tool_name := "foo",
          error := some "Meta-Layer error: Expecting value: line 1 column 1 (char 0)" } :=
  (C10_execute_200_invalid_body TOOL_WAREHOUSE_URL "foo" {}
    (fun _ => .response 200 ⟨"oops", .error "Expecting value: line 1 column 1 (char 0)"⟩)
    ⟨"oops", .error "Expecting value: line 1 column 1 (char 0)"⟩
    "Expecting value: line 1 column 1 (char 0)" rfl rfl).trans rfl

/-- C5 counterexample: the claim says a non-200 upstream body with no
`detail` field yields an error containing the raw body text; but for a
body that is not JSON at all, `response.json()` raises before `.get` can
fall back to `response.text`, and the catch-all produces a
`"Meta-Layer error: ..."` message that does not contain the body text
`"bad"`. -/
theorem C5_counterexample :
    (execute_tool TOOL_WAREHOUSE_URL "foo" {}
        (fun _ => .response 404 ⟨"bad", .error "err"⟩)).1.error
      = some "Meta-Layer error: err" ∧
    containsStr "Meta-Layer error: err" "bad" = false :=
  ⟨rfl, rfl⟩

/-- C5 as amended: for every upstream non-200 response to
`POST /execute/{tool_name}`, the result has `success = false` and the
path's tool name; and the error is `"Tool Warehouse error: "` followed by
the `detail` field (if present, rendered) else the raw body text —
provided the body parses as a JSON object.  If it does not, the error is
instead `"Meta-Layer error: "` followed by the message of the exception
raised while reading `detail` (the JSON decode error, or the
`AttributeError` of calling `.get` on a non-dict). -/
theorem C5_execute_non200_error_content (url tool_name : String)
    (request : ToolExecutionRequest) (up : Upstream) (st : Nat) (b : UpstreamBody)
    (h : up (executeCall url tool_name request) = .response st b) (hst : st ≠ 200) :
    (execute_tool url tool_name request up).1.success = false ∧
    (execute_tool url tool_name request up).1.tool_name = tool_name ∧
    (execute_tool url tool_name request up).1.error =
      some (match b.json with
            | .ok (.obj fields) =>
                "Tool Warehouse error: " ++
                  (match lookupField fields "detail" with
                   | some d => pyStr d
                   | none => b.text)
            | .ok j =>
                "Meta-Layer error: " ++ ("'" ++ pyTypeName j ++ "' object has no attribute 'get'")
            | .error m => "Meta-Layer error: " ++ m) := by
  cases hb : b.json with
  | error m =>
      simp [execute_tool, execute_tool_try, doCall_eq_response h, hst, jsonGetDetail, hb, strPyExc]
  | ok j =>
      cases j <;>
        simp [execute_tool, execute_tool_try, doCall_eq_response h, hst, jsonGetDetail, hb,
              strPyExc, String.append_assoc]

/-- Witness for amended C5: upstream replies 404 with
`{"detail": "no such tool"}`; the failure payload reports
`Tool Warehouse error: no such tool` for the path's tool name. -/
theorem C5_execute_non200_error_content_witness :
    (execute_tool TOOL_WAREHOUSE_URL "foo" {}
        (fun _ => .response 404
          ⟨"detail body text", .ok (.obj [("detail", .str "no such tool")])⟩)).1.success = false ∧
    (execute_tool TOOL_WAREHOUSE_URL "foo" {}
        (fun _ => .response 404
          ⟨"detail body text", .ok (.obj [("detail", .str "no such tool")])⟩)).1.tool_name = "foo" ∧
    (execute_tool TOOL_WAREHOUSE_URL "foo" {}
        (fun _ => .response 404
          ⟨"detail body text", .ok (.obj [("detail", .str "no such tool")])⟩)).1.error
      = some "Tool Warehouse error: no such tool" := by
  have h := C5_execute_non200_error_content TOOL_WAREHOUSE_URL "foo" {}
    (fun _ => .response 404 ⟨"detail body text", .ok (.obj [("detail", .str "no such tool")])⟩)
    404 ⟨"detail body text", .ok (.obj [("detail", .str "no such tool")])⟩ rfl (by decide)
  exact ⟨h.1, h.2.1, h.2.2.trans rfl⟩

end MetaLayer

